import Mathlib

/-!
Shallow embedding of the TrashCommand dispatcher (main.go, and the leveled-logging
variant in src/unnamed/part_000) for verification of its classification and
dispatch core.

The inbound transport delivers raw text payloads.  The text-to-tree layer is the
Go standard library JSON parser, which lives outside this repository; we model a
raw payload as `Option Json`: `none` stands for a payload that is not a
syntactically valid JSON document, `some j` for one that parses to the tree `j`.
`json.Unmarshal` into the repository's struct types is modelled field by field
below, following Go semantics: absent fields and JSON `null` leave the zero
value, present fields of the wrong type are an unmarshal error, unknown fields
are ignored.  JSON numbers are modelled as integers: the only numeric field in
this system's schemas is the integer `ttl`.
-/

namespace TrashCommand

/-- A parsed JSON document.  Object fields are kept in document order; field
lookup takes the first binding for a key. -/
inductive Json where
  | null : Json
  | bool (b : Bool) : Json
  | num (n : Int) : Json
  | str (s : String) : Json
  | arr (elems : List Json) : Json
  | obj (fields : List (String × Json)) : Json

/-- Struct `Item` from main.go: the item that was reacted to. -/
structure Item where
  type : String
  channel : String
  ts : String
deriving DecidableEq

/-- Struct `Event` from main.go: the nested event object. -/
structure Event where
  type : String
  user : String
  reaction : String
  item : Item
  itemUser : String
  eventTS : String
deriving DecidableEq

/-- Struct `Auth` from main.go: authorization information. -/
structure Auth where
  userId : String
  isBot : Bool
deriving DecidableEq

/-- Struct `ReactionEvent` from main.go: the structure of a Slack reaction event. -/
structure ReactionEvent where
  token : String
  teamId : String
  apiAppId : String
  type : String
  event : Event
  authorizations : List Auth
deriving DecidableEq

/-- Go zero value of `Item`. -/
def emptyItem : Item := ⟨"", "", ""⟩

/-- Go zero value of `Event`. -/
def emptyEvent : Event := ⟨"", "", "", emptyItem, "", ""⟩

/-- Go zero value of `ReactionEvent` (`var event ReactionEvent` in handleMessage). -/
def emptyReactionEvent : ReactionEvent := ⟨"", "", "", "", emptyEvent, []⟩

/-- Unmarshal a string-typed struct field: absent or `null` leaves the zero
value `""`, a JSON string is taken verbatim, anything else is a type error. -/
def decodeStringField (fields : List (String × Json)) (key : String) : Except String String :=
  match fields.lookup key with
  | none => .ok ""
  | some .null => .ok ""
  | some (.str s) => .ok s
  | some _ => .error ("cannot unmarshal field " ++ key ++ " into string")

/-- Unmarshal a bool-typed struct field (same absent/null defaulting). -/
def decodeBoolField (fields : List (String × Json)) (key : String) : Except String Bool :=
  match fields.lookup key with
  | none => .ok false
  | some .null => .ok false
  | some (.bool b) => .ok b
  | some _ => .error ("cannot unmarshal field " ++ key ++ " into bool")

/-- Unmarshal an int-typed struct field (same absent/null defaulting). -/
def decodeIntField (fields : List (String × Json)) (key : String) : Except String Int :=
  match fields.lookup key with
  | none => .ok 0
  | some .null => .ok 0
  | some (.num n) => .ok n
  | some _ => .error ("cannot unmarshal field " ++ key ++ " into int")

/-- Unmarshal the fields of an `Item` object. -/
def decodeItemObj (fields : List (String × Json)) : Except String Item := do
  let t ← decodeStringField fields "type"
  let c ← decodeStringField fields "channel"
  let ts ← decodeStringField fields "ts"
  .ok ⟨t, c, ts⟩

/-- Unmarshal the `item` field of an `Event`: absent or `null` leaves the zero
`Item`, an object is decoded, anything else is a type error. -/
def decodeItemField (fields : List (String × Json)) : Except String Item :=
  match fields.lookup "item" with
  | none => .ok emptyItem
  | some .null => .ok emptyItem
  | some (.obj fs) => decodeItemObj fs
  | some _ => .error "cannot unmarshal field item into Item"

/-- Unmarshal the fields of an `Event` object. -/
def decodeEventObj (fields : List (String × Json)) : Except String Event := do
  let t ← decodeStringField fields "type"
  let u ← decodeStringField fields "user"
  let r ← decodeStringField fields "reaction"
  let i ← decodeItemField fields
  let iu ← decodeStringField fields "item_user"
  let ets ← decodeStringField fields "event_ts"
  .ok ⟨t, u, r, i, iu, ets⟩

/-- Unmarshal the `event` field of a `ReactionEvent`: absent or `null` leaves
the zero `Event`. -/
def decodeEventField (fields : List (String × Json)) : Except String Event :=
  match fields.lookup "event" with
  | none => .ok emptyEvent
  | some .null => .ok emptyEvent
  | some (.obj fs) => decodeEventObj fs
  | some _ => .error "cannot unmarshal field event into Event"

/-- Unmarshal a single element of the `authorizations` array into an `Auth`. -/
def decodeAuth : Json → Except String Auth
  | .null => .ok ⟨"", false⟩
  | .obj fs => do
      let u ← decodeStringField fs "user_id"
      let b ← decodeBoolField fs "is_bot"
      .ok ⟨u, b⟩
  | _ => .error "cannot unmarshal array element into Auth"

/-- Unmarshal the elements of the `authorizations` array in order. -/
def decodeAuthElems : List Json → Except String (List Auth)
  | [] => .ok []
  | x :: xs => do
      let a ← decodeAuth x
      let rest ← decodeAuthElems xs
      .ok (a :: rest)

/-- Unmarshal the `authorizations` field: absent or `null` leaves the zero
slice (empty list), an array is decoded element-wise. -/
def decodeAuthsField (fields : List (String × Json)) : Except String (List Auth) :=
  match fields.lookup "authorizations" with
  | none => .ok []
  | some .null => .ok []
  | some (.arr xs) => decodeAuthElems xs
  | some _ => .error "cannot unmarshal field authorizations into []Auth"

/-- Model of `json.Unmarshal` of a parsed document into `ReactionEvent`.  A top-level
`null` is a no-op on the zero value (Go semantics); a top-level non-object is a
type error. -/
def decodeReactionEvent : Json → Except String ReactionEvent
  | .null => .ok emptyReactionEvent
  | .obj fields => do
      let tok ← decodeStringField fields "token"
      let team ← decodeStringField fields "team_id"
      let app ← decodeStringField fields "api_app_id"
      let ty ← decodeStringField fields "type"
      let ev ← decodeEventField fields
      let auths ← decodeAuthsField fields
      .ok ⟨tok, team, app, ty, ev, auths⟩
  | _ => .error "cannot unmarshal document into ReactionEvent"

/-- The decoder applied to a raw payload: an unparseable payload (`none`) is a
decode error, a parsed document is unmarshalled. -/
def decode (payload : Option Json) : Except String ReactionEvent :=
  match payload with
  | none => .error "invalid document"
  | some j => decodeReactionEvent j

end TrashCommand

namespace TrashCommand

/-- Struct `Config` from main.go: the application configuration, read-only during
dispatch.  Loading from the environment is out of scope; dispatch reads only
`timeBombRedisChannel` and `timeBombTTLSeconds`. -/
structure Config where
  slackBotToken : String
  redisAddr : String
  redisPassword : String
  redisDB : Int
  redisChannel : String
  timeBombRedisChannel : String
  timeBombTTLSeconds : Int
deriving DecidableEq

/-- Struct `TimeBombMessage` from main.go: the message structure sent to TimeBomb,
with JSON tags `channel`, `ts`, `ttl`. -/
structure TimeBombMessage where
  channel : String
  timestamp : String
  ttl : Int
deriving DecidableEq

/-- Lowercase hexadecimal digit, as used by Go's JSON string escaper. -/
def hexDigit (n : Nat) : Char :=
  if n < 10 then Char.ofNat (48 + n) else Char.ofNat (87 + n)

/-- Go `encoding/json` escaping of one character inside a JSON string:
quote, backslash, newline, carriage return and tab get two-character escapes;
other control characters and (because HTML escaping is on by default) the
characters `<`, `>`, `&` get `\u00XX`; the line separators U+2028/U+2029 get
`\u202X`; everything else is emitted verbatim. -/
def goEscapeChar (c : Char) : String :=
  if c = '"' then "\\\""
  else if c = '\\' then "\\\\"
  else if c = '\n' then "\\n"
  else if c = '\r' then "\\r"
  else if c = '\t' then "\\t"
  else if c = '<' ∨ c = '>' ∨ c = '&' ∨ c.toNat < 32 then
    "\\u00" ++ String.singleton (hexDigit (c.toNat / 16)) ++ String.singleton (hexDigit (c.toNat % 16))
  else if c.toNat = 0x2028 ∨ c.toNat = 0x2029 then
    "\\u202" ++ String.singleton (hexDigit (c.toNat % 16))
  else String.singleton c

/-- Go JSON rendering of a string value (surrounding quotes plus escaping). -/
def goQuote (s : String) : String :=
  "\"" ++ String.join (s.toList.map goEscapeChar) ++ "\""

/-- Model of `json.Marshal` of a `TimeBombMessage`: fields in struct order under their
tags, compact encoding.  Marshalling this struct cannot fail in Go, so the
result is the payload string itself. -/
def marshalTimeBomb (m : TimeBombMessage) : String :=
  "\x7b\"channel\":" ++ goQuote m.channel ++ ",\"ts\":" ++ goQuote m.timestamp ++
    ",\"ttl\":" ++ toString m.ttl ++ "\x7d"

/-- Model of `json.Unmarshal` of a parsed document into `TimeBombMessage` (the decoding
side of the outbound record, per the Go struct tags). -/
def decodeTimeBomb : Json → Except String TimeBombMessage
  | .null => .ok ⟨"", "", 0⟩
  | .obj fields => do
      let c ← decodeStringField fields "channel"
      let t ← decodeStringField fields "ts"
      let n ← decodeIntField fields "ttl"
      .ok ⟨c, t, n⟩
  | _ => .error "cannot unmarshal document into TimeBombMessage"

/-- An externally observable side effect of one dispatch cycle: a Slack
`DeleteMessage` API call or a Redis publish of a payload to a channel.
Log lines are observability, not external effects, and are not modelled. -/
inductive Effect where
  | deleteCall (channel timestamp : String) : Effect
  | publishCall (channel payload : String) : Effect
deriving DecidableEq

/-- Function `isBot` from main.go: scans the authorizations for a record whose user id
matches the reacting user and whose bot flag is set. -/
def isBot (event : ReactionEvent) : Bool :=
  event.authorizations.any fun auth => auth.userId == event.event.user && auth.isBot

/-- Function `deleteMessage` from main.go: one Slack delete call on the item's channel
and timestamp.  A failure of the remote call only changes logging, never the
call that was issued. -/
def deleteMessage (event : ReactionEvent) : Effect :=
  .deleteCall event.event.item.channel event.event.item.ts

/-- The `TimeBombMessage` value constructed inside `publishToTimeBomb`. -/
def timeBombMessageFor (event : ReactionEvent) (config : Config) : TimeBombMessage :=
  { channel := event.event.item.channel
    timestamp := event.event.item.ts
    ttl := config.timeBombTTLSeconds }

/-- Function `publishToTimeBomb` from main.go: marshals the constructed message and
publishes it to the configured TimeBomb channel.  Marshalling of this struct
cannot fail; a publish failure only changes logging. -/
def publishToTimeBomb (event : ReactionEvent) (config : Config) : Effect :=
  .publishCall config.timeBombRedisChannel (marshalTimeBomb (timeBombMessageFor event config))

/-- The body of `handleMessage` after a successful unmarshal: the guard chain
on event type, item type and bot status, then the reaction dispatch. -/
def handleDecodedEvent (event : ReactionEvent) (config : Config) : List Effect :=
  if event.event.type ≠ "reaction_added" then []
  else if event.event.item.type ≠ "message" then []
  else if isBot event then []
  else if event.event.reaction = "wastebasket" then [deleteMessage event]
  else if event.event.reaction = "bomb" then [publishToTimeBomb event config]
  else []

/-- Function `handleMessage` from main.go, as the list of external effects it issues for
one inbound payload: a parse error drops the event, otherwise the decoded event
goes through the guard chain. -/
def handleMessage (payload : Option Json) (config : Config) : List Effect :=
  match payload with
  | none => []
  | some doc =>
    match decodeReactionEvent doc with
    | .error _ => []
    | .ok event => handleDecodedEvent event config

/-- The conceptual routing decision of the spec's Event Classifier (§4.2); not
materialized in the Go source, where it is the branch taken by `handleMessage`. -/
inductive RoutingDecision where
  | ignore (reason : String) : RoutingDecision
  | deleteNow (channel timestamp : String) : RoutingDecision
  | scheduleDelete (channel timestamp : String) (ttl : Int) : RoutingDecision
deriving DecidableEq

/-- The classifier: the branch structure of `handleMessage`, reified with the
spec's reason codes. -/
def classify (event : ReactionEvent) (config : Config) : RoutingDecision :=
  if event.event.type ≠ "reaction_added" then .ignore "non-reaction event"
  else if event.event.item.type ≠ "message" then .ignore "non-message item"
  else if isBot event then .ignore "automated originator"
  else if event.event.reaction = "wastebasket" then
    .deleteNow event.event.item.channel event.event.item.ts
  else if event.event.reaction = "bomb" then
    .scheduleDelete event.event.item.channel event.event.item.ts config.timeBombTTLSeconds
  else .ignore "unsupported reaction"

/-- The dispatcher: the external effects of executing a routing decision. -/
def dispatch (decision : RoutingDecision) (config : Config) : List Effect :=
  match decision with
  | .ignore _ => []
  | .deleteNow c t => [.deleteCall c t]
  | .scheduleDelete c t ttl =>
      [.publishCall config.timeBombRedisChannel (marshalTimeBomb ⟨c, t, ttl⟩)]

end TrashCommand

namespace TrashCommand

namespace Leveled

/-- Type `LogLevel` from the leveled-logging variant (src/unnamed/part_000). -/
inductive LogLevel where
  | debug : LogLevel
  | info : LogLevel
  | error : LogLevel
deriving DecidableEq

/-- Function `parseLogLevel` from the leveled variant: case-insensitive level names,
defaulting to INFO. -/
def parseLogLevel (level : String) : LogLevel :=
  match level.toUpper with
  | "DEBUG" => .debug
  | "INFO" => .info
  | "ERROR" => .error
  | _ => .info

/-- Function `isBot` from the leveled variant (src/unnamed/part_000, lines 270-278). -/
def isBot (event : ReactionEvent) : Bool :=
  event.authorizations.any fun auth => auth.userId == event.event.user && auth.isBot

/-- Function `deleteMessage` from the leveled variant (lines 227-240): one delete call;
the surrounding log lines are at INFO/ERROR level instead of unleveled. -/
def deleteMessage (event : ReactionEvent) : Effect :=
  .deleteCall event.event.item.channel event.event.item.ts

/-- The `TimeBombMessage` constructed inside the leveled `publishToTimeBomb`. -/
def timeBombMessageFor (event : ReactionEvent) (config : Config) : TimeBombMessage :=
  { channel := event.event.item.channel
    timestamp := event.event.item.ts
    ttl := config.timeBombTTLSeconds }

/-- Function `publishToTimeBomb` from the leveled variant (lines 243-267). -/
def publishToTimeBomb (event : ReactionEvent) (config : Config) : Effect :=
  .publishCall config.timeBombRedisChannel (marshalTimeBomb (timeBombMessageFor event config))

/-- The guard chain of the leveled `handleMessage` after a successful unmarshal
(lines 193-223); the skip branches log at DEBUG level instead of unleveled. -/
def handleDecodedEvent (event : ReactionEvent) (config : Config) : List Effect :=
  if event.event.type ≠ "reaction_added" then []
  else if event.event.item.type ≠ "message" then []
  else if isBot event then []
  else if event.event.reaction = "wastebasket" then [deleteMessage event]
  else if event.event.reaction = "bomb" then [publishToTimeBomb event config]
  else []

/-- Function `handleMessage` from the leveled variant (lines 186-224), as the list of
external effects it issues for one inbound payload. -/
def handleMessage (payload : Option Json) (config : Config) : List Effect :=
  match payload with
  | none => []
  | some doc =>
    match decodeReactionEvent doc with
    | .error _ => []
    | .ok event => handleDecodedEvent event config

end Leveled

/-! Sample inputs used by the concrete witnesses below. -/

/-- A configuration with the documented defaults and TTL 5. -/
def sampleConfig : Config :=
  { slackBotToken := "xoxb-token"
    redisAddr := "localhost:6379"
    redisPassword := ""
    redisDB := 0
    redisChannel := "slack-relay-reaction-added"
    timeBombRedisChannel := "timebomb-messages"
    timeBombTTLSeconds := 5 }

/-- A message item in channel C1 with timestamp 100.1, as a JSON document. -/
def sampleItemDoc : Json :=
  .obj [("type", .str "message"), ("channel", .str "C1"), ("ts", .str "100.1")]

/-- A full wastebasket reaction payload from a non-bot user. -/
def wastebasketDoc : Json :=
  .obj [("event", .obj [("type", .str "reaction_added"), ("user", .str "U1"),
          ("reaction", .str "wastebasket"), ("item", sampleItemDoc)]),
        ("authorizations", .arr [.obj [("user_id", .str "U1"), ("is_bot", .bool false)]])]

/-- The decoded form of `wastebasketDoc`. -/
def wastebasketEvent : ReactionEvent :=
  { token := "", teamId := "", apiAppId := "", type := ""
    event := { type := "reaction_added", user := "U1", reaction := "wastebasket"
               item := { type := "message", channel := "C1", ts := "100.1" }
               itemUser := "", eventTS := "" }
    authorizations := [⟨"U1", false⟩] }

/-- A full bomb reaction payload from a non-bot user. -/
def bombDoc : Json :=
  .obj [("event", .obj [("type", .str "reaction_added"), ("user", .str "U1"),
          ("reaction", .str "bomb"), ("item", sampleItemDoc)]),
        ("authorizations", .arr [.obj [("user_id", .str "U1"), ("is_bot", .bool false)]])]

/-- A decoded event whose kind is not reaction_added. -/
def nonReactionEvent : ReactionEvent :=
  { token := "", teamId := "", apiAppId := "", type := "event_callback"
    event := { type := "message_changed", user := "U1", reaction := "wastebasket"
               item := { type := "message", channel := "C1", ts := "100.1" }
               itemUser := "", eventTS := "" }
    authorizations := [] }

/-- A decoded wastebasket reaction on a non-message item. -/
def nonMessageItemEvent : ReactionEvent :=
  { token := "", teamId := "", apiAppId := "", type := ""
    event := { type := "reaction_added", user := "U1", reaction := "wastebasket"
               item := { type := "file", channel := "C1", ts := "100.1" }
               itemUser := "", eventTS := "" }
    authorizations := [] }

/-- A decoded event whose originator matches no authorization record. -/
def noMatchAuthEvent : ReactionEvent :=
  { token := "", teamId := "", apiAppId := "", type := ""
    event := { type := "reaction_added", user := "U1", reaction := "eyes"
               item := { type := "message", channel := "C1", ts := "100.1" }
               itemUser := "", eventTS := "" }
    authorizations := [⟨"U2", true⟩] }

/-- Like `wastebasketEvent` but with different originator, token, team,
event timestamp and authorizations, and the same item. -/
def wastebasketEventOther : ReactionEvent :=
  { token := "tok2", teamId := "T2", apiAppId := "A2", type := "event_callback"
    event := { type := "reaction_added", user := "U9", reaction := "wastebasket"
               item := { type := "message", channel := "C1", ts := "100.1" }
               itemUser := "U3", eventTS := "200.2" }
    authorizations := [⟨"U7", false⟩] }

/-- The outbound record of the round-trip scenario. -/
def sampleTimeBomb : TimeBombMessage := ⟨"C1", "100.1", 5⟩

/-- The serialized round-trip document, as a parsed JSON tree. -/
def sampleTimeBombDoc : Json :=
  .obj [("channel", .str "C1"), ("ts", .str "100.1"), ("ttl", .num 5)]

/-! Well-formedness predicates characterizing when `decode` succeeds: a field
is acceptable when absent, `null`, or of the field's type; nested objects
recursively so.  These are stated to express the amended decode-failure
claim and are proved equivalent to success of the source-modelled decoder. -/

/-- A string-typed field is well-typed: absent, `null`, or a JSON string. -/
def stringFieldOk (fields : List (String × Json)) (key : String) : Bool :=
  match fields.lookup key with
  | none => true
  | some .null => true
  | some (.str _) => true
  | some _ => false

/-- A bool-typed field is well-typed. -/
def boolFieldOk (fields : List (String × Json)) (key : String) : Bool :=
  match fields.lookup key with
  | none => true
  | some .null => true
  | some (.bool _) => true
  | some _ => false

/-- An int-typed field is well-typed. -/
def intFieldOk (fields : List (String × Json)) (key : String) : Bool :=
  match fields.lookup key with
  | none => true
  | some .null => true
  | some (.num _) => true
  | some _ => false

/-- All fields of an `Item` object are well-typed. -/
def itemObjOk (fields : List (String × Json)) : Bool :=
  stringFieldOk fields "type" && stringFieldOk fields "channel" && stringFieldOk fields "ts"

/-- The `item` field is well-typed. -/
def itemFieldOk (fields : List (String × Json)) : Bool :=
  match fields.lookup "item" with
  | none => true
  | some .null => true
  | some (.obj fs) => itemObjOk fs
  | some _ => false

/-- All fields of an `Event` object are well-typed. -/
def eventObjOk (fields : List (String × Json)) : Bool :=
  stringFieldOk fields "type" && stringFieldOk fields "user" &&
    stringFieldOk fields "reaction" && itemFieldOk fields &&
    stringFieldOk fields "item_user" && stringFieldOk fields "event_ts"

/-- The `event` field is well-typed. -/
def eventFieldOk (fields : List (String × Json)) : Bool :=
  match fields.lookup "event" with
  | none => true
  | some .null => true
  | some (.obj fs) => eventObjOk fs
  | some _ => false

/-- One element of the `authorizations` array is well-typed. -/
def authElemOk : Json → Bool
  | .null => true
  | .obj fs => stringFieldOk fs "user_id" && boolFieldOk fs "is_bot"
  | _ => false

/-- All elements of the `authorizations` array are well-typed. -/
def authElemsOk : List Json → Bool
  | [] => true
  | x :: xs => authElemOk x && authElemsOk xs

/-- The `authorizations` field is well-typed. -/
def authsFieldOk (fields : List (String × Json)) : Bool :=
  match fields.lookup "authorizations" with
  | none => true
  | some .null => true
  | some (.arr xs) => authElemsOk xs
  | some _ => false

/-- A parsed document unmarshals into `ReactionEvent` without error: it is
`null` or an object all of whose known fields are well-typed. -/
def reactionDocOk : Json → Bool
  | .null => true
  | .obj fields =>
      stringFieldOk fields "token" && stringFieldOk fields "team_id" &&
        stringFieldOk fields "api_app_id" && stringFieldOk fields "type" &&
        eventFieldOk fields && authsFieldOk fields
  | _ => false

/-- A raw payload decodes without error: it parses and unmarshals. -/
def payloadOk : Option Json → Bool
  | none => false
  | some j => reactionDocOk j

end TrashCommand

namespace TrashCommand

/-- The guard chain of `handleMessage` is exactly dispatch of classify: the
classifier reifies the branch that `handleMessage` takes, and the dispatcher
reifies the effect of that branch. -/
lemma handleDecodedEvent_eq_dispatch_classify (event : ReactionEvent) (config : Config) :
    handleDecodedEvent event config = dispatch (classify event config) config := by
  unfold handleDecodedEvent classify
  split_ifs <;> simp [dispatch, deleteMessage, publishToTimeBomb, timeBombMessageFor]

/-- Claim C1: a decoded reaction_added event on a message item from a
non-automated originator with reaction wastebasket makes dispatch issue exactly
one delete call, with the event's channel and item timestamp, and no publish. -/
theorem wastebasket_single_delete (doc : Json) (event : ReactionEvent) (config : Config)
    (hdec : decodeReactionEvent doc = .ok event)
    (hkind : event.event.type = "reaction_added")
    (hitem : event.event.item.type = "message")
    (hbot : isBot event = false)
    (hreact : event.event.reaction = "wastebasket") :
    handleMessage (some doc) config =
      [Effect.deleteCall event.event.item.channel event.event.item.ts] := by
  simp [handleMessage, hdec, handleDecodedEvent, hkind, hitem, hbot, hreact, deleteMessage]

/-- Witness for C1: the concrete wastebasket payload decodes and produces
exactly the one delete call on C1/100.1. -/
theorem wastebasket_single_delete_witness :
    handleMessage (some wastebasketDoc) sampleConfig = [Effect.deleteCall "C1" "100.1"] :=
  wastebasket_single_delete wastebasketDoc wastebasketEvent sampleConfig rfl rfl rfl rfl rfl

/-- Claim C2: for every inbound payload, processing produces at most one
external side effect — the effect list is empty, a single delete call, or a
single publish call. -/
theorem at_most_one_side_effect (payload : Option Json) (config : Config) :
    handleMessage payload config = [] ∨
    (∃ c t, handleMessage payload config = [Effect.deleteCall c t]) ∨
    (∃ c p, handleMessage payload config = [Effect.publishCall c p]) := by
  cases payload with
  | none => exact Or.inl rfl
  | some doc =>
    cases hdec : decodeReactionEvent doc with
    | error e => exact Or.inl (by simp [handleMessage, hdec])
    | ok event =>
      have h : handleMessage (some doc) config = handleDecodedEvent event config := by
        simp [handleMessage, hdec]
      rw [h]
      unfold handleDecodedEvent
      split_ifs
      · exact Or.inl rfl
      · exact Or.inl rfl
      · exact Or.inl rfl
      · exact Or.inr (Or.inl ⟨_, _, rfl⟩)
      · exact Or.inr (Or.inr ⟨_, _, rfl⟩)
      · exact Or.inl rfl

/-- Claim C3: the originator is resolved as automated iff some authorization
record matches the event's originator with the bot flag set; with no matching
record the originator counts as non-automated and classification never stops
with the automated-originator reason. -/
theorem isBot_iff_matching_auth (event : ReactionEvent) (config : Config) :
    (isBot event = true ↔
      ∃ a ∈ event.authorizations, a.userId = event.event.user ∧ a.isBot = true) ∧
    (isBot event = false → classify event config ≠ .ignore "automated originator") := by
  constructor
  · simp [isBot, List.any_eq_true, Bool.and_eq_true, beq_iff_eq]
  · intro hbot
    unfold classify
    split_ifs with h1 h2 h3 h4 h5 <;> simp_all

/-- Witness for C3: a concrete event with no matching authorization record is
not classified as automated-originator. -/
theorem isBot_iff_matching_auth_witness :
    classify noMatchAuthEvent sampleConfig ≠ RoutingDecision.ignore "automated originator" :=
  (isBot_iff_matching_auth noMatchAuthEvent sampleConfig).2 rfl

/-- Claim C5: the TTL carried in a published DeferredDeletionRequest is always
the configured process-wide default, independent of every event field; with
TTL 5 configured a qualifying bomb reaction issues exactly one publish whose
payload carries ttl 5, and no delete. -/
theorem ttl_always_config_default (e1 e2 : ReactionEvent) (config : Config) :
    (timeBombMessageFor e1 config).ttl = config.timeBombTTLSeconds ∧
    (timeBombMessageFor e1 config).ttl = (timeBombMessageFor e2 config).ttl ∧
    publishToTimeBomb e1 config =
      .publishCall config.timeBombRedisChannel (marshalTimeBomb (timeBombMessageFor e1 config)) ∧
    handleMessage (some bombDoc) sampleConfig =
      [Effect.publishCall "timebomb-messages"
        "\x7b\"channel\":\"C1\",\"ts\":\"100.1\",\"ttl\":5\x7d"] :=
  ⟨rfl, rfl, rfl, rfl⟩

/-- Claim C6: an event whose kind is not reaction_added is classified Ignore
with the non-reaction reason, whatever its other fields, and produces no
external effect. -/
theorem non_reaction_event_ignored (event : ReactionEvent) (config : Config)
    (h : event.event.type ≠ "reaction_added") :
    classify event config = .ignore "non-reaction event" ∧
    handleDecodedEvent event config = [] := by
  unfold classify handleDecodedEvent
  rw [if_pos h, if_pos h]
  exact ⟨rfl, rfl⟩

/-- Witness for C6: a concrete message_changed event is ignored with no effects. -/
theorem non_reaction_event_ignored_witness :
    classify nonReactionEvent sampleConfig = RoutingDecision.ignore "non-reaction event" ∧
    handleDecodedEvent nonReactionEvent sampleConfig = [] :=
  non_reaction_event_ignored nonReactionEvent sampleConfig (by decide)

/-- Claim C7: an event whose target item kind is not message is classified
Ignore and produces no external effect, even when the reaction is wastebasket
or bomb. -/
theorem non_message_item_ignored (event : ReactionEvent) (config : Config)
    (h : event.event.item.type ≠ "message") :
    (∃ reason, classify event config = .ignore reason) ∧
    handleDecodedEvent event config = [] := by
  unfold classify handleDecodedEvent
  by_cases hk : event.event.type ≠ "reaction_added"
  · rw [if_pos hk, if_pos hk]
    exact ⟨⟨_, rfl⟩, rfl⟩
  · rw [if_neg hk, if_neg hk, if_pos h, if_pos h]
    exact ⟨⟨_, rfl⟩, rfl⟩

/-- Witness for C7: a concrete wastebasket reaction on a file item is ignored
with no effects. -/
theorem non_message_item_ignored_witness :
    (∃ reason, classify nonMessageItemEvent sampleConfig = RoutingDecision.ignore reason) ∧
    handleDecodedEvent nonMessageItemEvent sampleConfig = [] :=
  non_message_item_ignored nonMessageItemEvent sampleConfig (by decide)

/-- Claim C9: the leveled-logging variant of the handler issues exactly the
same external effects (delete calls and publish payloads) as the main variant
on every inbound payload: its guard chain and effect construction are
identical, only log levels differ. -/
theorem leveled_handler_equivalent (payload : Option Json) (config : Config) :
    Leveled.handleMessage payload config = handleMessage payload config := rfl

/-- Claim C10: the outbound content depends only on the item's channel and
timestamp (and, for publishes, the configuration): two events agreeing on
those produce identical delete arguments and identical publish payloads,
whatever their originator, token, team, event timestamp or authorizations. -/
theorem outbound_noninterference (e1 e2 : ReactionEvent) (config : Config)
    (hch : e1.event.item.channel = e2.event.item.channel)
    (hts : e1.event.item.ts = e2.event.item.ts) :
    deleteMessage e1 = deleteMessage e2 ∧
    publishToTimeBomb e1 config = publishToTimeBomb e2 config := by
  unfold deleteMessage publishToTimeBomb timeBombMessageFor
  rw [hch, hts]
  exact ⟨rfl, rfl⟩

/-- Witness for C10: two concrete events differing in originator, token, team,
event timestamp and authorizations but sharing the item produce the same
delete call and the same publish payload. -/
theorem outbound_noninterference_witness :
    deleteMessage wastebasketEvent = deleteMessage wastebasketEventOther ∧
    publishToTimeBomb wastebasketEvent sampleConfig =
      publishToTimeBomb wastebasketEventOther sampleConfig :=
  outbound_noninterference wastebasketEvent wastebasketEventOther sampleConfig rfl rfl

/-- A bind in `Except` yields `ok` exactly when both stages do. -/
lemma exists_ok_bind {α β : Type} (x : Except String α) (f : α → Except String β) :
    (∃ b, x >>= f = Except.ok b) ↔ ∃ a, x = Except.ok a ∧ ∃ b, f a = Except.ok b := by
  cases x with
  | error e =>
    have h : (Except.error e : Except String α) >>= f = Except.error e := rfl
    simp [h]
  | ok a =>
    have h : (Except.ok a : Except String α) >>= f = f a := rfl
    simp [h]

/-- A string field unmarshals exactly when it is well-typed. -/
lemma decodeStringField_ok_iff (fields : List (String × Json)) (key : String) :
    (∃ s, decodeStringField fields key = Except.ok s) ↔ stringFieldOk fields key = true := by
  unfold decodeStringField stringFieldOk
  cases h : fields.lookup key with
  | none => simp
  | some v => cases v <;> simp

/-- A bool field unmarshals exactly when it is well-typed. -/
lemma decodeBoolField_ok_iff (fields : List (String × Json)) (key : String) :
    (∃ b, decodeBoolField fields key = Except.ok b) ↔ boolFieldOk fields key = true := by
  unfold decodeBoolField boolFieldOk
  cases h : fields.lookup key with
  | none => simp
  | some v => cases v <;> simp

/-- An int field unmarshals exactly when it is well-typed. -/
lemma decodeIntField_ok_iff (fields : List (String × Json)) (key : String) :
    (∃ n, decodeIntField fields key = Except.ok n) ↔ intFieldOk fields key = true := by
  unfold decodeIntField intFieldOk
  cases h : fields.lookup key with
  | none => simp
  | some v => cases v <;> simp

/-- An `Item` object unmarshals exactly when its fields are well-typed. -/
lemma decodeItemObj_ok_iff (fields : List (String × Json)) :
    (∃ i, decodeItemObj fields = Except.ok i) ↔ itemObjOk fields = true := by
  unfold decodeItemObj itemObjOk
  simp [exists_ok_bind, decodeStringField_ok_iff, and_assoc]

/-- The `item` field unmarshals exactly when it is well-typed. -/
lemma decodeItemField_ok_iff (fields : List (String × Json)) :
    (∃ i, decodeItemField fields = Except.ok i) ↔ itemFieldOk fields = true := by
  unfold decodeItemField itemFieldOk
  cases h : fields.lookup "item" with
  | none => simp
  | some v => cases v <;> simp [decodeItemObj_ok_iff]

/-- An `Event` object unmarshals exactly when its fields are well-typed. -/
lemma decodeEventObj_ok_iff (fields : List (String × Json)) :
    (∃ e, decodeEventObj fields = Except.ok e) ↔ eventObjOk fields = true := by
  unfold decodeEventObj eventObjOk
  simp [exists_ok_bind, decodeStringField_ok_iff, decodeItemField_ok_iff, and_assoc]

/-- The `event` field unmarshals exactly when it is well-typed. -/
lemma decodeEventField_ok_iff (fields : List (String × Json)) :
    (∃ e, decodeEventField fields = Except.ok e) ↔ eventFieldOk fields = true := by
  unfold decodeEventField eventFieldOk
  cases h : fields.lookup "event" with
  | none => simp
  | some v => cases v <;> simp [decodeEventObj_ok_iff]

/-- An `authorizations` element unmarshals exactly when it is well-typed. -/
lemma decodeAuth_ok_iff (j : Json) :
    (∃ a, decodeAuth j = Except.ok a) ↔ authElemOk j = true := by
  cases j <;>
    simp only [decodeAuth, authElemOk, exists_ok_bind, Except.ok.injEq, exists_eq',
      and_true, exists_and_right, exists_false, exists_const,
      decodeStringField_ok_iff, decodeBoolField_ok_iff, Bool.and_eq_true] <;>
    simp

/-- The `authorizations` elements unmarshal exactly when all are well-typed. -/
lemma decodeAuthElems_ok_iff (xs : List Json) :
    (∃ l, decodeAuthElems xs = Except.ok l) ↔ authElemsOk xs = true := by
  induction xs with
  | nil => simp [decodeAuthElems, authElemsOk]
  | cons x xs ih =>
    simp [decodeAuthElems, authElemsOk, exists_ok_bind, decodeAuth_ok_iff, ih]

/-- The `authorizations` field unmarshals exactly when it is well-typed. -/
lemma decodeAuthsField_ok_iff (fields : List (String × Json)) :
    (∃ l, decodeAuthsField fields = Except.ok l) ↔ authsFieldOk fields = true := by
  unfold decodeAuthsField authsFieldOk
  cases h : fields.lookup "authorizations" with
  | none => simp
  | some v => cases v <;> simp [decodeAuthElems_ok_iff]

/-- A document unmarshals into `ReactionEvent` exactly when it is well-typed. -/
lemma decodeReactionEvent_ok_iff (j : Json) :
    (∃ e, decodeReactionEvent j = Except.ok e) ↔ reactionDocOk j = true := by
  cases j <;>
    simp [decodeReactionEvent, reactionDocOk, exists_ok_bind, decodeStringField_ok_iff,
      decodeEventField_ok_iff, decodeAuthsField_ok_iff, and_assoc]

/-- Claim C4 counterexample: the empty object is a syntactically valid
document that lacks the event kind field entirely, yet decode succeeds on it
(yielding the zero event) instead of failing as the claim requires. -/
theorem decode_missing_kind_succeeds :
    decode (some (Json.obj [])) = Except.ok emptyReactionEvent := rfl

/-- Claim C4 (amended): decode fails exactly when the payload is not a
syntactically valid document or when some field present in the document has a
value of the wrong type; absent fields — the event kind included — default to
empty values without failing (the empty document decodes to the zero event). -/
theorem decode_ok_iff_wellformed (payload : Option Json) :
    ((∃ e, decode payload = Except.ok e) ↔ payloadOk payload = true) ∧
    decodeReactionEvent (Json.obj []) = Except.ok emptyReactionEvent := by
  refine ⟨?_, rfl⟩
  cases payload with
  | none => simp [decode, payloadOk]
  | some j => simpa [decode, payloadOk] using decodeReactionEvent_ok_iff j

/-- Claim C8: the DeferredDeletionRequest built from C1/100.1/5 marshals to
exactly the expected compact document, and unmarshalling that document yields
back the same three values. -/
theorem timebomb_roundtrip :
    marshalTimeBomb sampleTimeBomb =
      "\x7b\"channel\":\"C1\",\"ts\":\"100.1\",\"ttl\":5\x7d" ∧
    decodeTimeBomb sampleTimeBombDoc = Except.ok sampleTimeBomb := by
  exact ⟨rfl, rfl⟩
